import Mathlib

/-!
Shallow embedding of the pi42 Python SDK core: the request signing and
dispatch layer (src/pi42/client.py), response normalization
(src/pi42/client.py together with src/pi42/exceptions.py) and the
WebSocket manager (src/pi42/websocket.py).  Python dicts are modelled
as insertion-ordered association lists with unique keys, byte strings
as List Nat, and raised exceptions as Except errors.
-/

namespace Pi42

/-- Scalar values storable in a Python parameter mapping (the SDK passes
Dict[str, Any] whose values are the JSON scalars str, int, bool, None). -/
inductive PyValue where
  | pstr (s : String)
  | pint (n : Int)
  | pbool (b : Bool)
  | pnone
  deriving DecidableEq

/-- A Python dict with string keys: insertion-ordered association list,
keys unique. -/
abbrev PyDict := List (String × PyValue)

/-- Python str() of a scalar value (used by f-string formatting in
client.py line 140 and by urllib query encoding). -/
def pyStr : PyValue → String
  | PyValue.pstr s => s
  | PyValue.pint n => toString n
  | PyValue.pbool true => "True"
  | PyValue.pbool false => "False"
  | PyValue.pnone => "None"

/-- Python dict lookup d.get(k): first (only) binding of k, if any. -/
def dGet {α : Type} : List (String × α) → String → Option α
  | [], _ => none
  | kv :: rest, k => if kv.1 = k then some kv.2 else dGet rest k

/-- Python dict assignment d[k] = v: if k is present its value is
replaced in place (insertion position retained), otherwise the pair is
appended at the end.  This is exactly CPython dict update semantics. -/
def dSet {α : Type} : List (String × α) → String → α → List (String × α)
  | [], k, v => [(k, v)]
  | kv :: rest, k, v => if kv.1 = k then (k, v) :: rest else kv :: dSet rest k v

/-- Lower-case hex digit. -/
def hexDigit (n : Nat) : Char :=
  if n < 10 then Char.ofNat (48 + n) else Char.ofNat (87 + n)

/-- Upper-case hex digit (urllib percent-encoding uses upper case). -/
def hexDigitUpper (n : Nat) : Char :=
  if n < 10 then Char.ofNat (48 + n) else Char.ofNat (55 + n)

/-- Four lower-case hex digits, for json.dumps \u escapes. -/
def hex4 (n : Nat) : String :=
  String.mk [hexDigit (n / 4096 % 16), hexDigit (n / 256 % 16),
             hexDigit (n / 16 % 16), hexDigit (n % 16)]

/-- Escaping of one character by Python json.dumps with the default
ensure_ascii=True: characters outside the printable ASCII range
0x20..0x7e are escaped, quotes and backslashes and the short control
escapes specially. -/
def jsonEscapeChar (c : Char) : String :=
  if c = Char.ofNat 34 then "\\\""
  else if c = Char.ofNat 92 then "\\\\"
  else if c = Char.ofNat 10 then "\\n"
  else if c = Char.ofNat 13 then "\\r"
  else if c = Char.ofNat 9 then "\\t"
  else if c.toNat = 8 then "\\b"
  else if c.toNat = 12 then "\\f"
  else if c.toNat < 32 then "\\u" ++ hex4 c.toNat
  else if c.toNat < 127 then String.mk [c]
  else if c.toNat < 65536 then "\\u" ++ hex4 c.toNat
  else
    let n := c.toNat - 65536
    "\\u" ++ hex4 (55296 + n / 1024) ++ "\\u" ++ hex4 (56320 + n % 1024)

/-- Python json.dumps encoding of a str value (quoted, escaped). -/
def jsonQuote (s : String) : String :=
  "\"" ++ String.join (s.data.map jsonEscapeChar) ++ "\""

/-- Python json.dumps encoding of one scalar. -/
def jsonScalar : PyValue → String
  | PyValue.pstr s => jsonQuote s
  | PyValue.pint n => toString n
  | PyValue.pbool true => "true"
  | PyValue.pbool false => "false"
  | PyValue.pnone => "null"

/-- Python json.dumps of a flat dict of scalars, parameterized by the
separators pair: itemSep between members and kvSep between key and
value.  json.dumps default is itemSep = comma-space, kvSep =
colon-space; client.py passes the compact pair comma, colon. -/
def pyJsonDumps (d : PyDict) (itemSep kvSep : String) : String :=
  "\x7b" ++
    String.intercalate itemSep
      (d.map (fun kv => jsonQuote kv.1 ++ kvSep ++ jsonScalar kv.2)) ++
  "\x7d"

/-- The query string built for signing in get_request (client.py line
140): ampersand-joined "k=v" pairs via f-string, no URL encoding. -/
def signQueryString (d : PyDict) : String :=
  String.intercalate "&" (d.map (fun kv => kv.1 ++ "=" ++ pyStr kv.2))

/-- Characters urllib.parse.quote_plus leaves unchanged: ASCII
alphanumerics and underscore, dot, dash, tilde. -/
def urlsafeChar (c : Char) : Bool :=
  c.isAlphanum || c = Char.ofNat 95 || c = Char.ofNat 46 ||
  c = Char.ofNat 45 || c = Char.ofNat 126

/-- UTF-8 encoding of one character, as byte values. -/
def utf8Encode (c : Char) : List Nat :=
  let n := c.toNat
  if n < 128 then [n]
  else if n < 2048 then [192 + n / 64, 128 + n % 64]
  else if n < 65536 then [224 + n / 4096, 128 + n / 64 % 64, 128 + n % 64]
  else [240 + n / 262144, 128 + n / 4096 % 64, 128 + n / 64 % 64, 128 + n % 64]

/-- Percent-encoding of one byte, upper-case hex. -/
def percentByte (b : Nat) : List Char :=
  [Char.ofNat 37, hexDigitUpper (b / 16), hexDigitUpper (b % 16)]

/-- urllib.parse.quote_plus over a character list: safe characters kept,
space becomes plus, anything else percent-encoded per UTF-8 byte. -/
def quotePlusChars : List Char → List Char
  | [] => []
  | c :: cs =>
    (if urlsafeChar c then [c]
     else if c = Char.ofNat 32 then [Char.ofNat 43]
     else ((utf8Encode c).map percentByte).flatten) ++ quotePlusChars cs

/-- urllib.parse.quote_plus of a string. -/
def quotePlus (s : String) : String := String.mk (quotePlusChars s.data)

/-- The query string the requests library actually transmits for
requests.get(url, params=d): urlencode with quote_plus of str(key) and
str(value), insertion order, entries whose value is None dropped by
requests. -/
def sentQueryString (d : PyDict) : String :=
  String.intercalate "&"
    ((d.filter (fun kv => match kv.2 with | PyValue.pnone => false | _ => true)).map
      (fun kv => quotePlus kv.1 ++ "=" ++ quotePlus (pyStr kv.2)))

/-- UTF-8 bytes of a string (Python str.encode of client.py lines 70-71). -/
def strBytes (s : String) : List Nat :=
  (s.data.map utf8Encode).flatten

/-- Truncation to a 32-bit word. -/
def w32 (n : Nat) : Nat := n % 4294967296

/-- 32-bit right rotation. -/
def rotr32 (k n : Nat) : Nat := w32 ((n >>> k) ||| (n <<< (32 - k)))

/-- The primes below a bound, by trial division. -/
def smallPrimes (bound : Nat) : List Nat :=
  (List.range bound).filter
    (fun n => 2 ≤ n && (List.range n).all (fun d => d < 2 || n % d != 0))

/-- Floor of the cube root, by binary search (128 halvings cover every
argument the constant tables need). -/
def cbrtFloor (n : Nat) : Nat := Id.run do
  let mut lo := 0
  let mut hi := n + 1
  for _ in List.range 128 do
    let mid := (lo + hi) / 2
    if mid * mid * mid ≤ n then
      lo := mid
    else
      hi := mid
  return lo

/-- SHA-256 round constants: the first 32 bits of the fractional parts
of the cube roots of the first 64 primes (312 bounds the 64th prime,
which is 311). -/
def sha256K : List Nat :=
  ((smallPrimes 312).take 64).map (fun p => cbrtFloor (p * 2 ^ 96) % 2 ^ 32)

/-- SHA-256 initial hash value: the first 32 bits of the fractional
parts of the square roots of the first 8 primes. -/
def sha256H0 : List Nat :=
  ((smallPrimes 312).take 8).map (fun p => Nat.sqrt (p * 2 ^ 64) % 2 ^ 32)

/-- Big-endian bytes of a 64-bit quantity. -/
def be8 (n : Nat) : List Nat :=
  [n >>> 56 % 256, n >>> 48 % 256, n >>> 40 % 256, n >>> 32 % 256,
   n >>> 24 % 256, n >>> 16 % 256, n >>> 8 % 256, n % 256]

/-- Big-endian bytes of a 32-bit word. -/
def be4 (n : Nat) : List Nat :=
  [n >>> 24 % 256, n >>> 16 % 256, n >>> 8 % 256, n % 256]

/-- SHA-256 message padding: 0x80, zeros to 56 mod 64, 64-bit bit length. -/
def sha256Pad (msg : List Nat) : List Nat :=
  let L := msg.length
  msg ++ [128] ++ List.replicate ((119 - L % 64) % 64) 0 ++ be8 (8 * L)

/-- Split a byte list into 64-byte blocks. -/
def chunks64 (l : List Nat) : List (List Nat) :=
  if _h : l = [] then []
  else l.take 64 :: chunks64 (l.drop 64)
termination_by l.length
decreasing_by
  simp only [List.length_drop]
  have hl : 0 < l.length := List.length_pos.mpr _h
  omega

/-- Big-endian 32-bit words from bytes. -/
def bytesToWords : List Nat → List Nat
  | b0 :: b1 :: b2 :: b3 :: rest =>
    (((b0 * 256 + b1) * 256 + b2) * 256 + b3) :: bytesToWords rest
  | _ => []

/-- Message-schedule small sigma functions. -/
def ssig0 (x : Nat) : Nat := rotr32 7 x ^^^ rotr32 18 x ^^^ (x >>> 3)

/-- Second small sigma. -/
def ssig1 (x : Nat) : Nat := rotr32 17 x ^^^ rotr32 19 x ^^^ (x >>> 10)

/-- Compression big sigma functions. -/
def bsig0 (x : Nat) : Nat := rotr32 2 x ^^^ rotr32 13 x ^^^ rotr32 22 x

/-- Second big sigma. -/
def bsig1 (x : Nat) : Nat := rotr32 6 x ^^^ rotr32 11 x ^^^ rotr32 25 x

/-- One message-schedule extension step: appends the next scheduled word. -/
def extendStep (w : List Nat) : List Nat :=
  let n := w.length
  w ++ [w32 (w.getD (n - 16) 0 + ssig0 (w.getD (n - 15) 0) +
             w.getD (n - 7) 0 + ssig1 (w.getD (n - 2) 0))]

/-- One SHA-256 compression round; the argument couples k and the
scheduled word as their 32-bit sum. -/
def sha256Round (st : List Nat) (kw : Nat) : List Nat :=
  match st with
  | [a, b, c, d, e, f, g, h] =>
    let ch := (e &&& f) ^^^ ((e ^^^ 4294967295) &&& g)
    let temp1 := w32 (h + bsig1 e + ch + kw)
    let maj := (a &&& b) ^^^ (a &&& c) ^^^ (b &&& c)
    let temp2 := w32 (bsig0 a + maj)
    [w32 (temp1 + temp2), a, b, c, w32 (d + temp1), e, f, g]
  | other => other

/-- Process one 64-byte block. -/
def sha256Block (hs : List Nat) (block : List Nat) : List Nat :=
  let w := extendStep^[48] (bytesToWords block)
  let kw := (sha256K.zip w).map (fun p => w32 (p.1 + p.2))
  let st := kw.foldl sha256Round hs
  (hs.zip st).map (fun p => w32 (p.1 + p.2))

/-- SHA-256 of a byte list, as 32 output bytes. -/
def sha256Bytes (msg : List Nat) : List Nat :=
  (((chunks64 (sha256Pad msg)).foldl sha256Block sha256H0).map be4).flatten

/-- HMAC-SHA256 over byte lists (Python hmac.new(key, msg, sha256)). -/
def hmacSha256 (key msg : List Nat) : List Nat :=
  let k0 := if 64 < key.length then sha256Bytes key else key
  let k1 := k0 ++ List.replicate (64 - k0.length) 0
  sha256Bytes (k1.map (fun b => b ^^^ 92) ++
               sha256Bytes (k1.map (fun b => b ^^^ 54) ++ msg))

/-- Lower-case hex rendering of a byte list (hexdigest). -/
def bytesToHex (bs : List Nat) : String :=
  String.mk ((bs.map (fun b => [hexDigit (b / 16), hexDigit (b % 16)])).flatten)

/-- HMAC-SHA256 hexdigest of UTF-8 strings, exactly the computation of
Pi42Client._generate_signature once the secret check has passed
(client.py lines 69-73). -/
def hmacSha256Hex (key msg : String) : String :=
  bytesToHex (hmacSha256 (strBytes key) (strBytes msg))

/-- JSON values, the result of Python json.loads (objects keep key
order; JSON null is Python None). -/
inductive JValue where
  | null
  | bool (b : Bool)
  | num (n : Int)
  | str (s : String)
  | arr (elems : List JValue)
  | obj (fields : List (String × JValue))

/-- Exceptions raised by the client layer.  valueError models Python
ValueError (the ConfigurationError of the spec taxonomy);
pi42APIError and pi42RequestError model the classes of
src/pi42/exceptions.py; attributeError models an uncaught Python
AttributeError. -/
inductive PiError where
  | valueError (msg : String)
  | pi42APIError (statusCode : Nat) (message : JValue) (errorCode : JValue)
  | pi42RequestError (message : String)
  | attributeError

/-- Pi42Client._generate_signature (client.py lines 56-73): raises
ValueError when the configured secret is falsy (absent or empty),
otherwise returns the HMAC-SHA256 hexdigest of the payload under the
secret. -/
def generate_signature (apiSecret : Option String) (dataToSign : String) :
    Except PiError String :=
  match apiSecret with
  | none => Except.error (PiError.valueError "API secret is required for authenticated endpoints")
  | some s =>
    if s = "" then
      Except.error (PiError.valueError "API secret is required for authenticated endpoints")
    else
      Except.ok (hmacSha256Hex s dataToSign)

/-- Result of an authenticated or public GET dispatch (the request as
built and sent by Pi42Client.get_request, lines 112-158): the string
handed to the signer and the signature header (none on the public
path), the query string the requests library transmits, and the
parameter mapping actually used. -/
structure GetDispatch where
  dataToSign : Option String
  signature : Option String
  sentQuery : String
  actualParams : PyDict

/-- Pi42Client.get_request (client.py lines 112-158).  The expression
params.copy() if params else dict() produces the same entries as
params, so the internal copy is represented by the params value
itself; mutation of the caller's dict is treated separately in the
heap model below.  The timestamp argument stands for the string
_get_timestamp() returned. -/
def get_request (apiSecret : Option String) (params : PyDict)
    (isPublic : Bool) (ts : String) : Except PiError GetDispatch :=
  if isPublic then
    Except.ok ⟨none, none, sentQueryString params, params⟩
  else
    let actualParams := dSet params "timestamp" (PyValue.pstr ts)
    let queryStr := signQueryString actualParams
    match generate_signature apiSecret queryStr with
    | Except.error e => Except.error e
    | Except.ok sig =>
      Except.ok ⟨some queryStr, some sig, sentQueryString actualParams, actualParams⟩

/-- Result of a POST/PUT/DELETE dispatch: the string handed to the
signer and the signature header (none on the public path), the JSON
body the requests library transmits for json=actual_params (json.dumps
with its default separators, comma-space and colon-space), and the
parameter mapping actually used. -/
structure BodyDispatch where
  dataToSign : Option String
  signature : Option String
  sentBody : String
  actualParams : PyDict

/-- Pi42Client.post_request (client.py lines 160-208). -/
def post_request (apiSecret : Option String) (params : PyDict)
    (isPublic : Bool) (ts : String) : Except PiError BodyDispatch :=
  if isPublic then
    Except.ok ⟨none, none, pyJsonDumps params ", " ": ", params⟩
  else
    let actualParams := dSet params "timestamp" (PyValue.pstr ts)
    let dataToSign := pyJsonDumps actualParams "," ":"
    match generate_signature apiSecret dataToSign with
    | Except.error e => Except.error e
    | Except.ok sig =>
      Except.ok ⟨some dataToSign, some sig, pyJsonDumps actualParams ", " ": ", actualParams⟩

/-- Pi42Client.put_request (client.py lines 210-250): always
authenticated, otherwise identical to the post path. -/
def put_request (apiSecret : Option String) (params : PyDict)
    (ts : String) : Except PiError BodyDispatch :=
  let actualParams := dSet params "timestamp" (PyValue.pstr ts)
  let dataToSign := pyJsonDumps actualParams "," ":"
  match generate_signature apiSecret dataToSign with
  | Except.error e => Except.error e
  | Except.ok sig =>
    Except.ok ⟨some dataToSign, some sig, pyJsonDumps actualParams ", " ": ", actualParams⟩

/-- Pi42Client.delete_request (client.py lines 252-292): always
authenticated, otherwise identical to the post path. -/
def delete_request (apiSecret : Option String) (params : PyDict)
    (ts : String) : Except PiError BodyDispatch :=
  let actualParams := dSet params "timestamp" (PyValue.pstr ts)
  let dataToSign := pyJsonDumps actualParams "," ":"
  match generate_signature apiSecret dataToSign with
  | Except.error e => Except.error e
  | Except.ok sig =>
    Except.ok ⟨some dataToSign, some sig, pyJsonDumps actualParams ", " ": ", actualParams⟩

/-- An HTTP response as seen by _handle_response.  jsonBody models the
outcome of Python response.json(), that is json.loads of the body
text: some parsed value when the text is valid JSON, none when
json.loads raises ValueError. -/
structure HttpResponse where
  statusCode : Nat
  text : String
  jsonBody : Option JValue

/-- Python dict.get(k, dflt) on a parsed JSON object. -/
def jGetD (kvs : List (String × JValue)) (k : String) (dflt : JValue) : JValue :=
  (dGet kvs k).getD dflt

/-- A successful _handle_response result: the parsed JSON value, or the
raw body text when the 2xx body is not valid JSON. -/
inductive Handled where
  | jsonValue (v : JValue)
  | rawText (t : String)

/-- Pi42Client._handle_response (client.py lines 84-110).  response.ok
of the requests library is statusCode < 400.  On the error path the
code calls error_data.get, which raises an uncaught AttributeError
when the parsed error body is not a JSON object; json.loads failure
(ValueError) is caught and mapped to Pi42RequestError. -/
def handle_response (r : HttpResponse) : Except PiError Handled :=
  if r.statusCode < 400 then
    match r.jsonBody with
    | some v => Except.ok (Handled.jsonValue v)
    | none => Except.ok (Handled.rawText r.text)
  else
    match r.jsonBody with
    | some (JValue.obj kvs) =>
      Except.error (PiError.pi42APIError r.statusCode
        (jGetD kvs "message" (JValue.str "Unknown error"))
        (jGetD kvs "code" JValue.null))
    | some _ => Except.error PiError.attributeError
    | none =>
      Except.error (PiError.pi42RequestError
        ("HTTP Error: " ++ toString r.statusCode ++ " - " ++ r.text))

/-- A socketio.AsyncClient as the manager observes it: whether its
transport handshake has completed (the .connected attribute). -/
structure SioClient where
  connected : Bool
  deriving DecidableEq

/-- State of WebSocketManager (websocket.py lines 16-29): the two
optional connection objects, the listen key, and the callback registry
mapped by event-type name.  Callbacks are identified by an opaque
numeric id; payloads are JSON values.  The two constant URL fields are
kept so that frame effects on the remaining fields are expressible. -/
structure WSManager where
  publicSio : Option SioClient
  authSio : Option SioClient
  listenKey : Option String
  callbacks : List (String × Nat)
  publicUrl : String
  authUrl : String

/-- The manager immediately after construction (websocket.py lines
16-29): no connection objects, no listen key, empty registry. -/
def initManager : WSManager :=
  ⟨none, none, none, [], "https://fawss.pi42.com/", "https://fawss-uds.pi42.com/auth-stream"⟩

/-- The first effect of connect_public (websocket.py line 38): the
connection object is created and stored before the transport handshake
is awaited, so during the connecting window publicSio is present with
connected = false. -/
def connect_public_start (m : WSManager) : WSManager :=
  ⟨some ⟨false⟩, m.authSio, m.listenKey, m.callbacks, m.publicUrl, m.authUrl⟩

/-- The transport handshake completing (the awaited
self._public_sio.connect of websocket.py line 57). -/
def connect_public_handshake (m : WSManager) : WSManager :=
  ⟨some ⟨true⟩, m.authSio, m.listenKey, m.callbacks, m.publicUrl, m.authUrl⟩

/-- WebSocketManager.on (websocket.py lines 142-150): registers or
replaces the callback for an event type. -/
def wsOn (m : WSManager) (eventType : String) (cb : Nat) : WSManager :=
  ⟨m.publicSio, m.authSio, m.listenKey, dSet m.callbacks eventType cb,
   m.publicUrl, m.authUrl⟩

/-- Outcome of subscribe_public. -/
inductive SubscribeOutcome where
  | emitted (topics : List String)
  | notConnectedValueError
  deriving DecidableEq

/-- WebSocketManager.subscribe_public (websocket.py lines 74-87): raises
ValueError("Not connected to public WebSocket server") only when the
connection object is absent; otherwise emits the subscribe control
message carrying the topic list. -/
def subscribe_public (m : WSManager) (topics : List String) : SubscribeOutcome :=
  match m.publicSio with
  | none => SubscribeOutcome.notConnectedValueError
  | some _ => SubscribeOutcome.emitted topics

/-- The fixed vocabulary of public event types for which
connect_public registers socketio handlers (websocket.py lines 51-54). -/
def publicEventTypes : List String :=
  ["depthUpdate", "kline", "markPriceUpdate", "aggTrade",
   "24hrTicker", "marketInfo", "markPriceArr", "tickerArr"]

/-- What happens to one inbound event. -/
inductive DispatchOutcome where
  | invoked (cb : Nat) (payload : JValue)
  | logged (eventType : String) (payload : JValue)
  | noHandler

/-- Inbound event dispatch on the public connection: socketio delivers
the event to the handler registered for its tag, if any (handlers
exist exactly for publicEventTypes, websocket.py lines 50-55); the
handler (lines 66-72) invokes the registered callback with the payload
or logs the event when no callback is registered.  Events with a tag
outside the registered vocabulary have no socketio handler and are
dropped by the transport layer. -/
def dispatch_public_event (m : WSManager) (eventType : String) (payload : JValue) :
    DispatchOutcome :=
  if eventType ∈ publicEventTypes then
    match dGet m.callbacks eventType with
    | some cb => DispatchOutcome.invoked cb payload
    | none => DispatchOutcome.logged eventType payload
  else DispatchOutcome.noHandler

/-- Callback invocations an outcome performs: a logged or dropped event
invokes nothing and raises nothing. -/
def invocations : DispatchOutcome → List (Nat × JValue)
  | DispatchOutcome.invoked cb p => [(cb, p)]
  | DispatchOutcome.logged _ _ => []
  | DispatchOutcome.noHandler => []

/-- The disconnect operations close gathers. -/
inductive DisconnectTask where
  | publicDisconnect
  | authDisconnect
  deriving DecidableEq

/-- WebSocketManager.close (websocket.py lines 152-168): collects a
disconnect task for each connection object whose transport is
connected, awaits them all (asyncio.gather) before returning, then
clears both connection slots.  The first component is the list of
disconnects awaited before close returns. -/
def close (m : WSManager) : List DisconnectTask × WSManager :=
  let tasks1 : List DisconnectTask :=
    match m.publicSio with
    | some c => if c.connected then [DisconnectTask.publicDisconnect] else []
    | none => []
  let tasks2 : List DisconnectTask :=
    match m.authSio with
    | some c => if c.connected then [DisconnectTask.authDisconnect] else []
    | none => []
  (tasks1 ++ tasks2,
   ⟨none, none, m.listenKey, m.callbacks, m.publicUrl, m.authUrl⟩)

/-- A heap of Python dict objects, for observing aliasing and mutation:
a reference is an index into the store. -/
structure PyHeap where
  dicts : List PyDict

/-- Dereference (reads [] for a dangling reference). -/
def heapRead (h : PyHeap) (r : Nat) : PyDict := h.dicts.getD r []

/-- In-place update of the dict object behind a reference. -/
def heapWrite (h : PyHeap) (r : Nat) (d : PyDict) : PyHeap := ⟨h.dicts.set r d⟩

/-- Allocation of a fresh dict object. -/
def heapAlloc (h : PyHeap) (d : PyDict) : PyHeap × Nat :=
  (⟨h.dicts ++ [d]⟩, h.dicts.length)

/-- The parameter prelude shared verbatim by get_request, post_request,
put_request and delete_request (client.py lines 132-137, 180-185,
227-231 and 269-273): actual_params = params.copy() if params else a
fresh empty dict, then actual_params["timestamp"] = ts.  Returns the
heap after those statements and the reference to actual_params. -/
def request_params_setup (h : PyHeap) (paramsRef : Option Nat) (ts : String) :
    PyHeap × Nat :=
  let initial : PyDict :=
    match paramsRef with
    | some r => if (heapRead h r).isEmpty then [] else heapRead h r
    | none => []
  let alloc := heapAlloc h initial
  (heapWrite alloc.1 alloc.2 (dSet (heapRead alloc.1 alloc.2) "timestamp" (PyValue.pstr ts)),
   alloc.2)

/-- Canonical GET payload in the words of the spec: the
ampersand-joined key=value pairs of the parameter mapping in insertion
order with the injected timestamp entry appearing last. -/
def specQueryCanonical (params : PyDict) (ts : String) : String :=
  String.intercalate "&"
    ((params ++ [("timestamp", PyValue.pstr ts)]).map
      (fun kv => kv.1 ++ "=" ++ pyStr kv.2))

/-- Canonical body payload in the words of the spec: the compact JSON
serialization (separators comma and colon, no extra whitespace, keys
in insertion order) of the parameter mapping including the injected
timestamp entry. -/
def specCompactBody (params : PyDict) (ts : String) : String :=
  "\x7b" ++
    String.intercalate ","
      ((dSet params "timestamp" (PyValue.pstr ts)).map
        (fun kv => jsonQuote kv.1 ++ ":" ++ jsonScalar kv.2)) ++
  "\x7d"

/-- A string quote_plus leaves unchanged: every character URL-safe. -/
def safeStringB (s : String) : Bool := s.data.all urlsafeChar

/-- A parameter entry whose transmitted form is byte-identical to its
signed form: URL-safe key, URL-safe stringified value, and not None
(the requests library drops None-valued query parameters). -/
def urlCleanPair (kv : String × PyValue) : Bool :=
  safeStringB kv.1 && safeStringB (pyStr kv.2) &&
    (match kv.2 with | PyValue.pnone => false | _ => true)

/-- Whether a _handle_response outcome is a Pi42APIError (the ApiFailure
of the spec taxonomy, carrying an HTTP status). -/
def isApiFailureB : Except PiError Handled → Bool
  | Except.error (PiError.pi42APIError _ _ _) => true
  | _ => false

/-- Whether the manager holds a public connection whose transport is
connected (the condition of websocket.py line 158). -/
def publicActiveB (m : WSManager) : Bool :=
  match m.publicSio with
  | some c => c.connected
  | none => false

/-- Whether the manager holds an authenticated connection whose
transport is connected (the condition of websocket.py line 161). -/
def authActiveB (m : WSManager) : Bool :=
  match m.authSio with
  | some c => c.connected
  | none => false

/-- Setting an absent key appends the pair at the end, per Python dict
semantics. -/
theorem dSet_of_absent {α : Type} (d : List (String × α)) (k : String) (v : α)
    (h : dGet d k = none) : dSet d k v = d ++ [(k, v)] := by
  induction d with
  | nil => rfl
  | cons kv rest ih =>
    by_cases hk : kv.1 = k
    · simp [dGet, hk] at h
    · simp only [dGet, if_neg hk] at h
      simp [dSet, if_neg hk, ih h]

/-- Lookup after setting the same key. -/
theorem dGet_dSet_self {α : Type} (d : List (String × α)) (k : String) (v : α) :
    dGet (dSet d k v) k = some v := by
  induction d with
  | nil => simp [dSet, dGet]
  | cons kv rest ih =>
    by_cases hk : kv.1 = k
    · simp [dSet, if_pos hk, dGet]
    · simp [dSet, if_neg hk, dGet, if_neg hk, ih]

/-- quote_plus is the identity on URL-safe character lists. -/
theorem quotePlusChars_safe (cs : List Char) (h : cs.all urlsafeChar = true) :
    quotePlusChars cs = cs := by
  induction cs with
  | nil => rfl
  | cons c rest ih =>
    simp only [List.all_cons, Bool.and_eq_true] at h
    simp [quotePlusChars, h.1, ih h.2]

/-- quote_plus is the identity on URL-safe strings. -/
theorem quotePlus_safe (s : String) (h : safeStringB s = true) : quotePlus s = s := by
  unfold quotePlus
  rw [quotePlusChars_safe s.data h]

/-- Over URL-clean entries, the transmitted key=value pairs coincide
with the signed ones. -/
theorem sentPairs_eq_signPairs (d : PyDict) (h : d.all urlCleanPair = true) :
    (d.filter (fun kv => match kv.2 with | PyValue.pnone => false | _ => true)).map
      (fun kv => quotePlus kv.1 ++ "=" ++ quotePlus (pyStr kv.2)) =
    d.map (fun kv => kv.1 ++ "=" ++ pyStr kv.2) := by
  induction d with
  | nil => rfl
  | cons kv rest ih =>
    simp only [List.all_cons, Bool.and_eq_true] at h
    have hc := h.1
    unfold urlCleanPair at hc
    simp only [Bool.and_eq_true] at hc
    obtain ⟨⟨hk, hv⟩, hn⟩ := hc
    simp [List.filter, hn, quotePlus_safe _ hk, quotePlus_safe _ hv, ih h.2]

/-- Over URL-clean mappings, the transmitted query string is
byte-identical to the signed query string. -/
theorem sentQuery_eq_signQuery (d : PyDict) (h : d.all urlCleanPair = true) :
    sentQueryString d = signQueryString d := by
  unfold sentQueryString signQueryString
  rw [sentPairs_eq_signPairs d h]

/-- Frame property of the heap: writing the freshly allocated slot does
not change any previously allocated dict. -/
theorem heap_frame (l : List PyDict) (x d : PyDict) (r : Nat) (hr : r < l.length) :
    ((l ++ [x]).set l.length d).getD r [] = l.getD r [] := by
  rw [List.getD_eq_getElem?_getD, List.getD_eq_getElem?_getD,
      List.getElem?_set_ne (Nat.ne_of_gt hr), List.getElem?_append_left hr]

/-- C6: for every payload string, invoking the signer when the
configured secret is absent or the empty string fails with the
configuration error (ValueError in the code) before producing any
signature; signing never silently proceeds with an empty key. -/
theorem generate_signature_empty_secret_fails (secret : Option String) (payload : String)
    (h : secret = none ∨ secret = some "") :
    generate_signature secret payload =
      Except.error (PiError.valueError "API secret is required for authenticated endpoints") := by
  rcases h with h | h <;> subst h <;> simp [generate_signature]

/-- Witness for C6 at the absent secret and a concrete payload. -/
theorem generate_signature_empty_secret_fails_witness :
    ((none : Option String) = none ∨ (none : Option String) = some "") ∧
    generate_signature none "payload" =
      Except.error (PiError.valueError "API secret is required for authenticated endpoints") :=
  ⟨Or.inl rfl, generate_signature_empty_secret_fails none "payload" (Or.inl rfl)⟩

/-- C5: for every authenticated POST, PUT or DELETE dispatch with any
parameter mapping, the string handed to the signer equals the compact
JSON serialization (separators comma and colon, no extra whitespace,
keys in insertion order) of the parameter mapping including the
injected timestamp entry, and the produced signature is the
HMAC-SHA256 of exactly that string under the configured secret. -/
theorem body_verbs_sign_compact_json (s : String) (hs : s ≠ "") (params : PyDict) (ts : String) :
    (post_request (some s) params false ts).map (fun d => (d.dataToSign, d.signature)) =
      Except.ok (some (specCompactBody params ts),
                 some (hmacSha256Hex s (specCompactBody params ts))) ∧
    (put_request (some s) params ts).map (fun d => (d.dataToSign, d.signature)) =
      Except.ok (some (specCompactBody params ts),
                 some (hmacSha256Hex s (specCompactBody params ts))) ∧
    (delete_request (some s) params ts).map (fun d => (d.dataToSign, d.signature)) =
      Except.ok (some (specCompactBody params ts),
                 some (hmacSha256Hex s (specCompactBody params ts))) := by
  refine ⟨?_, ?_, ?_⟩ <;>
    simp [post_request, put_request, delete_request, generate_signature, hs,
          specCompactBody, pyJsonDumps, Except.map]

/-- Witness for C5 at a concrete secret, mapping and timestamp. -/
theorem body_verbs_sign_compact_json_witness :
    (("k" : String) ≠ "") ∧
    (post_request (some "k") [("a", PyValue.pint 2)] false "1").map
        (fun d => (d.dataToSign, d.signature)) =
      Except.ok (some (specCompactBody [("a", PyValue.pint 2)] "1"),
                 some (hmacSha256Hex "k" (specCompactBody [("a", PyValue.pint 2)] "1"))) :=
  ⟨by decide, (body_verbs_sign_compact_json "k" (by decide) [("a", PyValue.pint 2)] "1").1⟩

/-- C4 (amended): for every authenticated GET dispatch whose parameter
mapping does not already contain a timestamp key, the string handed to
the signer equals the ampersand-joined key=value pairs in insertion
order with the injected timestamp entry last, and the produced
signature is the HMAC-SHA256 of exactly that string under the
configured secret.  (When the mapping already contains a timestamp
key, the injection replaces the value in place and the entry keeps its
original position, see the counterexample.) -/
theorem get_signed_query_canonical (s : String) (hs : s ≠ "") (params : PyDict) (ts : String)
    (hts : dGet params "timestamp" = none) :
    (get_request (some s) params false ts).map (fun d => (d.dataToSign, d.signature)) =
      Except.ok (some (specQueryCanonical params ts),
                 some (hmacSha256Hex s (specQueryCanonical params ts))) := by
  have hd := dSet_of_absent params "timestamp" (PyValue.pstr ts) hts
  simp [get_request, generate_signature, hs, specQueryCanonical, signQueryString, hd, Except.map]

/-- Witness for C4 at a concrete secret, mapping and timestamp. -/
theorem get_signed_query_canonical_witness :
    (("k" : String) ≠ "" ∧ dGet ([("a", PyValue.pstr "2")] : PyDict) "timestamp" = none) ∧
    (get_request (some "k") [("a", PyValue.pstr "2")] false "1000").map
        (fun d => (d.dataToSign, d.signature)) =
      Except.ok (some (specQueryCanonical [("a", PyValue.pstr "2")] "1000"),
                 some (hmacSha256Hex "k" (specQueryCanonical [("a", PyValue.pstr "2")] "1000"))) :=
  ⟨⟨by decide, by decide⟩,
   get_signed_query_canonical "k" (by decide) [("a", PyValue.pstr "2")] "1000" (by decide)⟩

/-- C4 counterexample: when the caller's mapping already contains a
timestamp key, the injected timestamp is written in place and the
signed query string is timestamp=1000&a=2, not the claimed form with
the timestamp entry appearing last (a=2&timestamp=1000). -/
theorem get_timestamp_not_last_counterexample :
    (get_request (some "k") [("timestamp", PyValue.pstr "1"), ("a", PyValue.pstr "2")]
        false "1000").map (fun d => d.dataToSign) = Except.ok (some "timestamp=1000&a=2") ∧
    ("timestamp=1000&a=2" : String) ≠ "a=2&timestamp=1000" :=
  ⟨rfl, by decide⟩

/-- C1 (amended): for every authenticated dispatch, GET with a URL-clean
mapping (URL-safe keys and stringified values, no None values) sends a
query string byte-identical to the signed one; for POST, PUT and
DELETE the signed string is the compact-separator JSON serialization
of the transmitted mapping while the body actually transmitted is the
default-separator serialization (comma-space, colon-space) of that
same mapping, so the transmitted bytes are not the signed bytes (see
the counterexample). -/
theorem signed_vs_transmitted (s : String) (hs : s ≠ "") (params : PyDict) (ts : String)
    (hclean : (dSet params "timestamp" (PyValue.pstr ts)).all urlCleanPair = true) :
    (get_request (some s) params false ts).map (fun d => (d.dataToSign, d.sentQuery)) =
      Except.ok (some (signQueryString (dSet params "timestamp" (PyValue.pstr ts))),
                 signQueryString (dSet params "timestamp" (PyValue.pstr ts))) ∧
    (post_request (some s) params false ts).map (fun d => (d.dataToSign, d.sentBody)) =
      Except.ok (some (pyJsonDumps (dSet params "timestamp" (PyValue.pstr ts)) "," ":"),
                 pyJsonDumps (dSet params "timestamp" (PyValue.pstr ts)) ", " ": ") ∧
    (put_request (some s) params ts).map (fun d => (d.dataToSign, d.sentBody)) =
      Except.ok (some (pyJsonDumps (dSet params "timestamp" (PyValue.pstr ts)) "," ":"),
                 pyJsonDumps (dSet params "timestamp" (PyValue.pstr ts)) ", " ": ") ∧
    (delete_request (some s) params ts).map (fun d => (d.dataToSign, d.sentBody)) =
      Except.ok (some (pyJsonDumps (dSet params "timestamp" (PyValue.pstr ts)) "," ":"),
                 pyJsonDumps (dSet params "timestamp" (PyValue.pstr ts)) ", " ": ") := by
  have hq := sentQuery_eq_signQuery _ hclean
  refine ⟨?_, ?_, ?_, ?_⟩ <;>
    simp [get_request, post_request, put_request, delete_request,
          generate_signature, hs, hq, Except.map]

/-- Witness for C1 at a concrete secret, mapping and timestamp. -/
theorem signed_vs_transmitted_witness :
    (("k" : String) ≠ "" ∧
     (dSet ([("a", PyValue.pstr "x")] : PyDict) "timestamp" (PyValue.pstr "1000")).all
        urlCleanPair = true) ∧
    (get_request (some "k") [("a", PyValue.pstr "x")] false "1000").map
        (fun d => (d.dataToSign, d.sentQuery)) =
      Except.ok
        (some (signQueryString (dSet [("a", PyValue.pstr "x")] "timestamp" (PyValue.pstr "1000"))),
         signQueryString (dSet [("a", PyValue.pstr "x")] "timestamp" (PyValue.pstr "1000"))) :=
  ⟨⟨by decide, by decide⟩,
   (signed_vs_transmitted "k" (by decide) [("a", PyValue.pstr "x")] "1000" (by decide)).1⟩

/-- C1 counterexample: for an authenticated POST the signed string is
the compact JSON serialization but the transmitted body carries the
default separators, so the bytes differ on every dispatch (the mapping
always contains at least the timestamp entry). -/
theorem post_signed_bytes_differ_counterexample :
    (post_request (some "k") [] false "1000").map (fun d => (d.dataToSign, d.sentBody)) =
      Except.ok (some "\x7b\"timestamp\":\"1000\"\x7d", "\x7b\"timestamp\": \"1000\"\x7d") ∧
    ("\x7b\"timestamp\":\"1000\"\x7d" : String) ≠ "\x7b\"timestamp\": \"1000\"\x7d" :=
  ⟨rfl, by decide⟩

/-- C2 (amended): responses in the ok range of the requests library
(status below 400) yield the parsed JSON payload, or the raw text when
the body is not valid JSON; a status of 400 or above whose body parses
as a JSON object raises Pi42APIError carrying the status, the
extracted message (Unknown error when absent) and the optional code;
a status of 400 or above whose body is not parseable JSON raises
Pi42RequestError (the message-only request-error class, not an
ApiFailure carrying the status) whose message is built from the raw
status and body text. -/
theorem handle_response_normalization (status : Nat) (text : String) (v : JValue)
    (kvs : List (String × JValue)) :
    (status < 400 → handle_response ⟨status, text, some v⟩ =
       Except.ok (Handled.jsonValue v)) ∧
    (status < 400 → handle_response ⟨status, text, none⟩ =
       Except.ok (Handled.rawText text)) ∧
    (400 ≤ status → handle_response ⟨status, text, some (JValue.obj kvs)⟩ =
       Except.error (PiError.pi42APIError status
         (jGetD kvs "message" (JValue.str "Unknown error"))
         (jGetD kvs "code" JValue.null))) ∧
    (400 ≤ status → handle_response ⟨status, text, none⟩ =
       Except.error (PiError.pi42RequestError
         ("HTTP Error: " ++ toString status ++ " - " ++ text))) := by
  refine ⟨fun h => ?_, fun h => ?_, fun h => ?_, fun h => ?_⟩
  · simp [handle_response, h]
  · simp [handle_response, h]
  · simp [handle_response, Nat.not_lt.mpr h]
  · simp [handle_response, Nat.not_lt.mpr h]

/-- Witness for C2 at a 200 response with a JSON body and a 500
response with a non-JSON body. -/
theorem handle_response_normalization_witness :
    ((200 : Nat) < 400 ∧ (400 : Nat) ≤ 500) ∧
    handle_response ⟨200, "t", some (JValue.str "x")⟩ =
      Except.ok (Handled.jsonValue (JValue.str "x")) ∧
    handle_response ⟨500, "oops", none⟩ =
      Except.error (PiError.pi42RequestError
        ("HTTP Error: " ++ toString (500 : Nat) ++ " - " ++ "oops")) :=
  ⟨⟨by decide, by decide⟩,
   (handle_response_normalization 200 "t" (JValue.str "x") []).1 (by decide),
   (handle_response_normalization 500 "oops" (JValue.str "x") []).2.2.2 (by decide)⟩

/-- C2 counterexample: a 500 response whose body oops is not parseable
JSON raises Pi42RequestError with the composed message, not an
ApiFailure (Pi42APIError) carrying status 500 and message oops as the
claim states. -/
theorem non_json_error_body_counterexample :
    handle_response ⟨500, "oops", none⟩ =
      Except.error (PiError.pi42RequestError "HTTP Error: 500 - oops") ∧
    isApiFailureB (handle_response ⟨500, "oops", none⟩) = false :=
  ⟨rfl, rfl⟩

/-- C3 (amended): subscribe fails with the not-connected ValueError and
emits nothing exactly when no public connection object exists (before
any connect request, or after close); whenever a connection object
exists — connected or still completing its handshake — subscribe
emits the subscribe control message carrying exactly the given topic
list.  In particular, in the Connected state the message is emitted. -/
theorem subscribe_guard (m : WSManager) (topics : List String) :
    (m.publicSio = none →
       subscribe_public m topics = SubscribeOutcome.notConnectedValueError) ∧
    (∀ c, m.publicSio = some c →
       subscribe_public m topics = SubscribeOutcome.emitted topics) := by
  constructor
  · intro h
    simp [subscribe_public, h]
  · intro c h
    simp [subscribe_public, h]

/-- Witness for C3 at the freshly constructed manager. -/
theorem subscribe_guard_witness :
    initManager.publicSio = none ∧
    subscribe_public initManager ["btcinr@ticker"] =
      SubscribeOutcome.notConnectedValueError :=
  ⟨rfl, (subscribe_guard initManager ["btcinr@ticker"]).1 rfl⟩

/-- C3 counterexample: in the window after connect has been requested
but before the transport handshake completes (connection object
present, connected still false) subscribe does not fail with the
not-connected error: it emits the subscribe message. -/
theorem subscribe_during_connecting_counterexample :
    (connect_public_start initManager).publicSio.map SioClient.connected = some false ∧
    subscribe_public (connect_public_start initManager) ["btcinr@ticker"] =
      SubscribeOutcome.emitted ["btcinr@ticker"] :=
  ⟨rfl, rfl⟩

/-- C7: for every event type in the fixed vocabulary, an inbound event
with a registered callback invokes it exactly once with the event
payload (also right after registering via on); an event whose tag has
no registered callback invokes nothing and raises nothing (it is
logged); an event outside the vocabulary is dropped. -/
theorem dispatch_event_callback_semantics (m : WSManager) (e : String)
    (payload : JValue) (cb : Nat) :
    (e ∈ publicEventTypes → dGet m.callbacks e = some cb →
       dispatch_public_event m e payload = DispatchOutcome.invoked cb payload) ∧
    (e ∈ publicEventTypes →
       invocations (dispatch_public_event (wsOn m e cb) e payload) = [(cb, payload)]) ∧
    (e ∈ publicEventTypes → dGet m.callbacks e = none →
       invocations (dispatch_public_event m e payload) = [] ∧
       dispatch_public_event m e payload = DispatchOutcome.logged e payload) ∧
    (e ∉ publicEventTypes →
       dispatch_public_event m e payload = DispatchOutcome.noHandler) := by
  refine ⟨fun he hcb => ?_, fun he => ?_, fun he hcb => ?_, fun he => ?_⟩
  · simp [dispatch_public_event, he, hcb]
  · simp [dispatch_public_event, he, wsOn, dGet_dSet_self, invocations]
  · refine ⟨?_, ?_⟩ <;> simp [dispatch_public_event, he, hcb, invocations]
  · simp [dispatch_public_event, he]

/-- Witness for C7: register a callback for 24hrTicker, dispatch the
ticker payload of the spec example, observe exactly one invocation. -/
theorem dispatch_event_callback_semantics_witness :
    ("24hrTicker" ∈ publicEventTypes) ∧
    invocations (dispatch_public_event (wsOn initManager "24hrTicker" 7) "24hrTicker"
        (JValue.obj [("s", JValue.str "BTCINR"), ("c", JValue.str "100")])) =
      [(7, JValue.obj [("s", JValue.str "BTCINR"), ("c", JValue.str "100")])] :=
  ⟨by decide,
   (dispatch_event_callback_semantics initManager "24hrTicker"
      (JValue.obj [("s", JValue.str "BTCINR"), ("c", JValue.str "100")]) 7).2.1 (by decide)⟩

/-- C8: close on a supervisor with no connections is a no-op returning
without error; close awaits exactly the disconnect of every connection
whose transport is active before returning, and afterwards the
supervisor owns no connections (both slots reset). -/
theorem close_awaits_and_resets (m : WSManager) :
    (m.publicSio = none ∧ m.authSio = none → close m = ([], m)) ∧
    (close m).2.publicSio = none ∧
    (close m).2.authSio = none ∧
    (DisconnectTask.publicDisconnect ∈ (close m).1 ↔ publicActiveB m = true) ∧
    (DisconnectTask.authDisconnect ∈ (close m).1 ↔ authActiveB m = true) := by
  obtain ⟨ps, aus, lk, cbs, pu, au⟩ := m
  refine ⟨?_, rfl, rfl, ?_, ?_⟩
  · rintro ⟨rfl, rfl⟩
    rfl
  · rcases ps with _ | ⟨_ | _⟩ <;> rcases aus with _ | ⟨_ | _⟩ <;>
      simp [close, publicActiveB]
  · rcases ps with _ | ⟨_ | _⟩ <;> rcases aus with _ | ⟨_ | _⟩ <;>
      simp [close, authActiveB]

/-- Witness for C8: the empty manager closes as a no-op, and closing a
manager with one active public connection awaits its disconnect. -/
theorem close_awaits_and_resets_witness :
    (initManager.publicSio = none ∧ initManager.authSio = none) ∧
    close initManager = ([], initManager) ∧
    DisconnectTask.publicDisconnect ∈
      (close ⟨some ⟨true⟩, none, none, [], "", ""⟩).1 :=
  ⟨⟨rfl, rfl⟩,
   (close_awaits_and_resets initManager).1 ⟨rfl, rfl⟩,
   (close_awaits_and_resets ⟨some ⟨true⟩, none, none, [], "", ""⟩).2.2.2.1.mpr rfl⟩

/-- C10: closing the supervisor leaves the callback registry unchanged
(a handler registered via on is still registered afterwards) and
resets only the two connection fields; the listen key and URLs are
untouched. -/
theorem close_preserves_callback_registry (m : WSManager) (e : String) (cb : Nat) :
    (close m).2.callbacks = m.callbacks ∧
    dGet (close (wsOn m e cb)).2.callbacks e = some cb ∧
    (close m).2.listenKey = m.listenKey ∧
    (close m).2.publicUrl = m.publicUrl ∧
    (close m).2.authUrl = m.authUrl ∧
    (close m).2.publicSio = none ∧
    (close m).2.authSio = none := by
  refine ⟨rfl, ?_, rfl, rfl, rfl, rfl, rfl⟩
  simp [close, wsOn, dGet_dSet_self]

/-- C9: the caller-supplied parameter dict is not mutated by the shared
request prelude of get_request, post_request, put_request and
delete_request: the timestamp is injected only into the freshly
allocated internal copy, which is a different object. -/
theorem request_does_not_mutate_caller_params (h : PyHeap) (r : Nat) (ts : String)
    (hr : r < h.dicts.length) :
    heapRead (request_params_setup h (some r) ts).1 r = heapRead h r ∧
    (request_params_setup h (some r) ts).2 ≠ r := by
  constructor
  · exact heap_frame h.dicts _ _ r hr
  · exact Nat.ne_of_gt hr

/-- Witness for C9 at a one-dict heap. -/
theorem request_does_not_mutate_caller_params_witness :
    (0 < (PyHeap.mk [[("a", PyValue.pstr "1")]]).dicts.length) ∧
    heapRead (request_params_setup (PyHeap.mk [[("a", PyValue.pstr "1")]]) (some 0) "9").1 0 =
      heapRead (PyHeap.mk [[("a", PyValue.pstr "1")]]) 0 :=
  ⟨by decide,
   (request_does_not_mutate_caller_params (PyHeap.mk [[("a", PyValue.pstr "1")]]) 0 "9"
      (by decide)).1⟩

end Pi42
